import Mathlib

/-!
Shallow embedding of the aoapi Go package (github.com/z0rr0/aoapi):
a typed client for OpenAI-compatible chat-completion and image APIs.

The embedding follows the newest revision of each source file:
`types.go` (closed-vocabulary string types Role / Model / FinishReason with
generic `marshalJSON` / `unMarshalJSON`), `aoapi.go` (`CompletionRequest`,
`TokenLimits`, `CompletionResponse`), `image.go` (`ImageRequest`,
`ImageResponse`) and `common.go` (`ResponseError`, `commonRequest`).

Go's `encoding/json` byte level is modelled by an explicit JSON value type
`Json`; the library decode step of a response body is modelled as an
`Except String` input (the decoder either fails with a detail message or
yields the decoded shape).  Go error values built from `errors.New`,
`fmt.Errorf` with `%w`, and the two-argument `errors.Join` are modelled by
the `GoErr` tree, whose `message` function renders `Error()` strings the
way Go does (wrapping concatenates, `Join` separates by a newline).
-/

namespace Aoapi

/-- A JSON value, standing for the bytes that `encoding/json` reads or
writes.  `f32` carries the 32 raw bits of a Go `float32`; the library never
computes with these values, it only passes them through. -/
inductive Json where
  | null
  | bool (b : Bool)
  | num (n : Nat)
  | f32 (bits : Nat)
  | str (s : String)
  | arr (xs : List Json)
  | obj (fields : List (String × Json))
  deriving Repr, BEq

/-- A Go error value: `simple` is `errors.New`/`fmt.Errorf` without `%w`,
`wrap` is `fmt.Errorf("...: %w", inner)` with the text before the wrapped
error, `join` is the two-argument `errors.Join` used throughout the code. -/
inductive GoErr where
  | simple (msg : String)
  | wrap (note : String) (inner : GoErr)
  | join (a b : GoErr)
  deriving Repr, DecidableEq

/-- `Error()` rendering of a Go error: wrapping concatenates, a join prints
its members separated by a newline. -/
def GoErr.message : GoErr → String
  | .simple s => s
  | .wrap note inner => note ++ inner.message
  | .join a b => a.message ++ "\n" ++ b.message

/-- `errors.Is(e, target)`: the error itself, the wrapped error, or either
member of a join may match the target. -/
def GoErr.isErr : GoErr → GoErr → Bool
  | .simple s, target => GoErr.simple s == target
  | .wrap note inner, target => GoErr.wrap note inner == target || inner.isErr target
  | .join a b, target => GoErr.join a b == target || a.isErr target || b.isErr target

/-- `ErrMarshalJSON` from types.go. -/
def ErrMarshalJSON : GoErr := .simple "failed JSON marshal"

/-- `ErrUnmarshalJSON` from types.go. -/
def ErrUnmarshalJSON : GoErr := .simple "failed JSON unmarshal"

/-- `ErrRequiredParam` from aoapi.go. -/
def ErrRequiredParam : GoErr := .simple "required parameter is missing"

/-- `ErrResponse` from aoapi.go. -/
def ErrResponse : GoErr := .simple "failed response"

/-! ### types.go: closed-vocabulary string types -/

/-- Go's `Role` is a string type. -/
abbrev Role := String

def RoleSystem : Role := "system"
def RoleUser : Role := "user"
def RoleAssistant : Role := "assistant"

/-- Go's `Model` is a string type. -/
abbrev Model := String

def ModelDalle2 : Model := "dall-e-2"
def ModelDalle3 : Model := "dall-e-3"
def ModelGPT35Turbo : Model := "gpt-3.5-turbo"
def ModelGPT4 : Model := "gpt-4"
def ModelGPT4Turbo : Model := "gpt-4-turbo"
def ModelGPT4o : Model := "gpt-4o"
def ModelGPT4oTurbo : Model := "gpt-4o-turbo"
def ModelGPT4oMini : Model := "gpt-4o-mini"
def ModelGPT41 : Model := "gpt-4.1"
def ModelGPT41Mini : Model := "gpt-4.1-mini"
def ModelGPT41Nano : Model := "gpt-4.1-nano"
def ModelGPT45Preview : Model := "gpt-4.5-preview"
def ModelGPTo1 : Model := "o1"
def ModelGPTo1Mini : Model := "o1-mini"
def ModelGPTo1Preview : Model := "o1-preview"
def ModelGPTo1Pro : Model := "o1-pro"
def ModelGPTo3Mini : Model := "o3-mini"
def ModelDeepSeekChat : Model := "deepseek-chat"
def ModelDeepSeekReasoner : Model := "deepseek-reasoner"

/-- `ModelCodexMiniLatest`: referenced by the `TokenLimits` table in
aoapi.go; its constant declaration sits in the revision of types.go that
accompanies that table, where it carries its API identifier string. -/
def ModelCodexMiniLatest : Model := "codex-mini-latest"

/-- Go's `FinishReason` is a string type. -/
abbrev FinishReason := String

def FinishReasonLength : FinishReason := "length"
def FinishReasonStop : FinishReason := "stop"

/-- The variadic `values` list passed by `Role.MarshalJSON` /
`Role.UnmarshalJSON` in types.go. -/
def roleValues : List Role := [RoleSystem, RoleUser, RoleAssistant]

/-- The variadic `values` list passed by `Model.MarshalJSON` /
`Model.UnmarshalJSON` in types.go. -/
def modelValues : List Model :=
  [ModelDalle2, ModelDalle3,
   ModelGPT35Turbo, ModelGPT4, ModelGPT4Turbo, ModelGPT4o, ModelGPT4oTurbo,
   ModelGPT4oMini, ModelGPT45Preview,
   ModelGPTo1, ModelGPTo1Pro, ModelGPTo1Mini, ModelGPTo1Preview, ModelGPTo3Mini,
   ModelGPT41, ModelGPT41Mini, ModelGPT41Nano,
   ModelDeepSeekChat, ModelDeepSeekReasoner]

/-- The variadic `values` list passed by `FinishReason.MarshalJSON` /
`FinishReason.UnmarshalJSON` in types.go. -/
def finishReasonValues : List FinishReason := [FinishReasonLength, FinishReasonStop]

/-- The `for _, value := range values` membership loop the generic
marshal/unmarshal helpers run: exact, case-sensitive string comparison. -/
def containsValue (v : String) : List String → Bool
  | [] => false
  | value :: rest => if v = value then true else containsValue v rest

mutual

/-- Rendering of raw JSON bytes, used for the `%v` interpolation of the
input bytes in the generic unmarshal error message. -/
def renderJson : Json → String
  | .null => "null"
  | .bool b => if b then "true" else "false"
  | .num n => toString n
  | .f32 bits => toString bits
  | .str s => "\"" ++ s ++ "\""
  | .arr xs => "[" ++ renderJsonList xs ++ "]"
  | .obj fs => "\x7b" ++ renderJsonFields fs ++ "\x7d"

/-- Comma-separated rendering of a JSON array's elements. -/
def renderJsonList : List Json → String
  | [] => ""
  | [x] => renderJson x
  | x :: rest => renderJson x ++ "," ++ renderJsonList rest

/-- Comma-separated rendering of a JSON object's fields. -/
def renderJsonFields : List (String × Json) → String
  | [] => ""
  | [f] => "\"" ++ f.1 ++ "\":" ++ renderJson f.2
  | f :: rest => "\"" ++ f.1 ++ "\":" ++ renderJson f.2 ++ "," ++ renderJsonFields rest

end

/-- `marshalJSON` (types.go): succeeds with the JSON string of the value
exactly when the value occurs in the allow-list, otherwise fails with
`ErrMarshalJSON` joined with the offending value. -/
def marshalJSON (t : String) (values : List String) : Except GoErr Json :=
  if containsValue t values then
    .ok (.str t)
  else
    .error (.join ErrMarshalJSON (.simple ("invalid value: " ++ t)))

/-- Result of `unMarshalJSON`: the receiver `*t` after the call, and the
returned error if any. -/
structure UnmarshalResult where
  receiver : String
  err : Option GoErr
  deriving Repr, DecidableEq

/-- `unMarshalJSON` (types.go): first `json.Unmarshal` of the bytes into a
string (fails unless the bytes are a JSON string token), then the
allow-list membership loop; the receiver is assigned only on success. -/
def unMarshalJSON (t : String) (b : Json) (values : List String) : UnmarshalResult :=
  match b with
  | .str s =>
      if containsValue s values then
        ⟨s, none⟩
      else
        ⟨t, some (.join ErrUnmarshalJSON (.simple ("invalid value: " ++ s)))⟩
  | other =>
      ⟨t, some (.join ErrUnmarshalJSON
        (.simple ("invalid string value: " ++ renderJson other)))⟩

/-- `Role.MarshalJSON` (types.go). -/
def Role.MarshalJSON (r : Role) : Except GoErr Json := marshalJSON r roleValues

/-- `Role.UnmarshalJSON` (types.go). -/
def Role.UnmarshalJSON (r : Role) (b : Json) : UnmarshalResult :=
  unMarshalJSON r b roleValues

/-- `Model.MarshalJSON` (types.go). -/
def Model.MarshalJSON (m : Model) : Except GoErr Json := marshalJSON m modelValues

/-- `Model.UnmarshalJSON` (types.go). -/
def Model.UnmarshalJSON (m : Model) (b : Json) : UnmarshalResult :=
  unMarshalJSON m b modelValues

/-- `FinishReason.MarshalJSON` (types.go). -/
def FinishReason.MarshalJSON (f : FinishReason) : Except GoErr Json :=
  marshalJSON f finishReasonValues

/-- `FinishReason.UnmarshalJSON` (types.go). -/
def FinishReason.UnmarshalJSON (f : FinishReason) (b : Json) : UnmarshalResult :=
  unMarshalJSON f b finishReasonValues

/-- `imageModels` (types.go): the models reserved for image generation. -/
def imageModels : List Model := [ModelDalle2, ModelDalle3]

/-! ### aoapi.go: completion request and response -/

/-- The `TokenLimits` table (aoapi.go) as an association list. -/
def tokenLimitsEntries : List (Model × Nat) :=
  [(ModelGPT35Turbo, 4096),
   (ModelGPT4, 8192),
   (ModelGPT4Turbo, 4096),
   (ModelGPT4o, 4096),
   (ModelGPT4oTurbo, 4096),
   (ModelGPT4oMini, 4096),
   (ModelGPT41, 32768),
   (ModelGPT41Mini, 32768),
   (ModelGPT41Nano, 32768),
   (ModelGPT45Preview, 16384),
   (ModelGPTo1, 100000),
   (ModelGPTo1Mini, 65536),
   (ModelGPTo1Preview, 32768),
   (ModelGPTo3Mini, 100000),
   (ModelGPTo1Pro, 100000),
   (ModelCodexMiniLatest, 100000),
   (ModelDeepSeekChat, 8192),
   (ModelDeepSeekReasoner, 8192)]

/-- `TokenLimits[m]` with Go map semantics: a missing key reads as the
zero value `0`. -/
def TokenLimits (m : Model) : Nat :=
  match tokenLimitsEntries.lookup m with
  | some v => v
  | none => 0

/-- `Message` (aoapi.go): `role`, `content`, optional `name` (omitempty;
the Go zero value is the empty string). -/
structure Message where
  role : Role
  content : String
  name : String
  deriving Repr, DecidableEq

/-- `Choice` (aoapi.go). -/
structure Choice where
  index : Int
  message : Message
  finishReason : FinishReason
  deriving Repr, DecidableEq

/-- `Usage` (aoapi.go). -/
structure Usage where
  promptTokens : Nat
  completionTokens : Nat
  totalTokens : Nat
  deriving Repr, DecidableEq

/-- `CompletionRequest` (aoapi.go).  Go pointer-typed optional fields are
`Option`s (nil pointer = `none`); `maxTokens`/`user` are plain scalars
whose zero value means unset, exactly as their Go `omitempty` tags treat
them.  `f32` values carry raw float32 bits. -/
structure CompletionRequest where
  model : Model
  messages : List Message
  maxTokens : Nat := 0
  user : String := ""
  temperature : Option Nat := none
  topP : Option Nat := none
  n : Option Nat := none
  stream : Option Bool := none
  stop : Option (List String) := none
  presencePenalty : Option Nat := none
  frequencyPenalty : Option Nat := none
  logitBias : Option (List (String × Nat)) := none
  deriving Repr, DecidableEq

/-- `json.Marshal` of one `Message`: the `Role` field uses the custom
marshaler, whose failure `encoding/json` wraps in a `MarshalerError`. -/
def Message.marshalBody (m : Message) : Except GoErr Json :=
  match Role.MarshalJSON m.role with
  | .error e =>
      .error (.wrap "json: error calling MarshalJSON for type aoapi.Role: " e)
  | .ok roleJson =>
      .ok (.obj ([("role", roleJson), ("content", .str m.content)] ++
        (if m.name = "" then [] else [("name", .str m.name)])))

/-- `json.Marshal` of a `[]Message`, stopping at the first field error as
`encoding/json` does. -/
def marshalMessages : List Message → Except GoErr (List Json)
  | [] => .ok []
  | m :: rest =>
      match m.marshalBody with
      | .error e => .error e
      | .ok j =>
          match marshalMessages rest with
          | .error e => .error e
          | .ok js => .ok (j :: js)

/-- An `omitempty` field backed by a Go pointer: absent exactly when the
pointer is nil. -/
def optField (key : String) : Option Json → List (String × Json)
  | none => []
  | some j => [(key, j)]

/-- `json.Marshal(c)` for a `CompletionRequest`: fields in declaration
order, custom marshalers for `Model` and each message's `Role`, `omitempty`
omitting zero scalars and nil pointers. -/
def CompletionRequest.marshalBody (c : CompletionRequest) : Except GoErr Json :=
  match Model.MarshalJSON c.model with
  | .error e =>
      .error (.wrap "json: error calling MarshalJSON for type aoapi.Model: " e)
  | .ok modelJson =>
      match marshalMessages c.messages with
      | .error e => .error e
      | .ok msgs =>
          .ok (.obj ([("model", modelJson), ("messages", .arr msgs)] ++
            (if c.maxTokens = 0 then [] else [("max_tokens", .num c.maxTokens)]) ++
            (if c.user = "" then [] else [("user", .str c.user)]) ++
            optField "temperature" (c.temperature.map .f32) ++
            optField "top_p" (c.topP.map .f32) ++
            optField "n" (c.n.map .num) ++
            optField "stream" (c.stream.map .bool) ++
            optField "stop" (c.stop.map (fun xs => .arr (xs.map .str))) ++
            optField "presence_penalty" (c.presencePenalty.map .f32) ++
            optField "frequency_penalty" (c.frequencyPenalty.map .f32) ++
            optField "logit_bias" (c.logitBias.map
              (fun bs => .obj (bs.map (fun b => (b.1, Json.f32 b.2)))))))

/-- `CompletionRequest.marshal` (aoapi.go): the three validation checks in
order, then `json.Marshal` with its error wrapped as
"failed to marshal request: %w". -/
def CompletionRequest.marshal (c : CompletionRequest) : Except GoErr Json :=
  if c.model = "" then
    .error (.join ErrRequiredParam (.simple "model must not be empty"))
  else if c.messages.length = 0 then
    .error (.join ErrRequiredParam (.simple "messages must not be empty"))
  else if 0 < c.maxTokens ∧ TokenLimits c.model < c.maxTokens then
    .error (.join ErrRequiredParam
      (.simple ("max tokens limit is " ++ toString (TokenLimits c.model) ++
        ", but gotten " ++ toString c.maxTokens)))
  else
    match c.marshalBody with
    | .error e => .error (.wrap "failed to marshal request: " e)
    | .ok j => .ok j

/-- The wire fields of a `CompletionResponse` as decoded from the body. -/
structure RawCompletionResponse where
  id : String
  object : String
  created : Int
  choices : List Choice
  usage : Usage
  deriving Repr, DecidableEq

/-- `CompletionResponse` (aoapi.go): wire fields plus the derived
`createdTs` (epoch seconds of `created`) and the non-wire `stopMarker`. -/
structure CompletionResponse where
  id : String
  object : String
  created : Int
  choices : List Choice
  usage : Usage
  createdTs : Int
  stopMarker : String
  deriving Repr, DecidableEq

/-- `CompletionResponse.build` (aoapi.go).  The `json.Decoder` step on the
body is modelled as the input: either the decoded wire shape or the decode
failure's detail message. -/
def CompletionResponse.build (decoded : Except String RawCompletionResponse)
    (stopMarker : String) : Except GoErr CompletionResponse :=
  match decoded with
  | .error e =>
      .error (.join ErrResponse (.wrap "failed to unmarshal response: " (.simple e)))
  | .ok raw =>
      if raw.choices.length = 0 then
        .error (.join ErrResponse (.simple "empty response"))
      else
        .ok ⟨raw.id, raw.object, raw.created, raw.choices, raw.usage,
          raw.created, stopMarker⟩

/-- The `CompletionResponse.String()` method (aoapi.go), named `toString`
here because `String` is the Lean string type: a string-builder loop over
the choices, appending the stop marker after a choice finished for
"length" only when a marker is configured. -/
def CompletionResponse.toString (r : CompletionResponse) : String :=
  let hasMarker : Bool := r.stopMarker ≠ ""
  r.choices.foldl
    (fun acc choice =>
      acc ++ choice.message.content ++
        (if hasMarker = true ∧ choice.finishReason = FinishReasonLength then
          r.stopMarker
        else "")) ""

/-- `CompletionResponse.UsageInfo` (aoapi.go). -/
def CompletionResponse.UsageInfo (r : CompletionResponse) : String :=
  "prompt tokens: " ++ Nat.repr r.usage.promptTokens ++
  ", completion tokens: " ++ Nat.repr r.usage.completionTokens ++
  ", total tokens: " ++ Nat.repr r.usage.totalTokens

/-! ### image.go: image request and response -/

/-- `ImageRequest` (image.go): `prompt`, optional `n` and `size` (both
omitempty with zero values `0` and `""`). -/
structure ImageRequest where
  prompt : String
  n : Nat := 0
  size : String := ""
  deriving Repr, DecidableEq

/-- `ImageRequest.marshal` (image.go): the prompt check, then
`json.Marshal` of the struct — which has no custom marshalers and so
cannot fail. -/
def ImageRequest.marshal (i : ImageRequest) : Except GoErr Json :=
  if i.prompt = "" then
    .error (.join ErrRequiredParam (.simple "prompt must not be empty"))
  else
    .ok (.obj ([("prompt", .str i.prompt)] ++
      (if i.n = 0 then [] else [("n", .num i.n)]) ++
      (if i.size = "" then [] else [("size", .str i.size)])))

/-- `ImageData` (image.go). -/
structure ImageData where
  url : String
  deriving Repr, DecidableEq

/-- The wire fields of an `ImageResponse`. -/
structure RawImageResponse where
  created : Int
  data : List ImageData
  deriving Repr, DecidableEq

/-- `ImageResponse` (image.go): wire fields plus derived `createdTs`. -/
structure ImageResponse where
  created : Int
  data : List ImageData
  createdTs : Int
  deriving Repr, DecidableEq

/-- `ImageResponse.build` (image.go).  As for the completion response, the
`json.Decoder` step is modelled as the input.  Note the decode failure is
a plain `fmt.Errorf` wrap, not joined with `ErrResponse`. -/
def ImageResponse.build (decoded : Except String RawImageResponse) :
    Except GoErr ImageResponse :=
  match decoded with
  | .error e =>
      .error (.wrap "failed to unmarshal image response: " (.simple e))
  | .ok raw =>
      if raw.data.length = 0 then
        .error (.join ErrResponse (.simple "empty image response"))
      else
        .ok ⟨raw.created, raw.data, raw.created⟩

/-! ### common.go: error decoding and the transport orchestrator -/

/-- `ErrorInfo` (common.go): the nested error body shape. -/
structure ErrorInfo where
  message : String
  type : String
  param : String
  code : String
  deriving Repr, DecidableEq

/-- `ResponseError.Error()` (common.go): the fixed
`type=%q, param=%q, code=%q: %s` format. -/
def responseErrorMessage (e : ErrorInfo) : String :=
  "type=\"" ++ e.type ++ "\", param=\"" ++ e.param ++ "\", code=\"" ++ e.code ++
  "\": " ++ e.message

/-- `ResponseError.build` (common.go): the status-code context is joined
first; a failed decode of the error body joins the decode failure, a
successful decode joins the formatted `ResponseError`.  The `json.Decoder`
step on the error body is modelled as the `decoded` input. -/
def ResponseError.build (decoded : Except String ErrorInfo) (statusCode : Int) :
    GoErr :=
  let err := GoErr.join ErrResponse
    (.simple ("status code " ++ Int.repr statusCode))
  match decoded with
  | .error e => .join err (.wrap "failed unmarshal error: " (.simple e))
  | .ok info => .join err (.simple (responseErrorMessage info))

/-- `Params` (common.go). -/
structure Params where
  bearer : String
  organization : String
  url : String
  stopMarker : String
  deriving Repr, DecidableEq

/-- An outbound HTTP request as `build` constructs it: POST to the
configured URL with the auth headers and the marshalled body. -/
structure HTTPRequest where
  url : String
  headers : List (String × String)
  body : Json
  deriving Repr, BEq

/-- The header block shared by `CompletionRequest.build` and
`ImageRequest.build`. -/
def authHeaders (auth : Params) : List (String × String) :=
  [("Content-Type", "application/json"),
   ("Authorization", "Bearer " ++ auth.bearer)] ++
  (if auth.organization = "" then []
   else [("OpenAI-Organization", auth.organization)])

/-- `CompletionRequest.build` (aoapi.go): marshal, then construct the
outbound request with the auth headers. -/
def CompletionRequest.buildReq (c : CompletionRequest) (auth : Params) :
    Except GoErr HTTPRequest :=
  match c.marshal with
  | .error e => .error e
  | .ok body => .ok ⟨auth.url, authHeaders auth, body⟩

/-- `ImageRequest.build` (image.go): marshal, then construct the outbound
request with the auth headers. -/
def ImageRequest.buildReq (i : ImageRequest) (auth : Params) :
    Except GoErr HTTPRequest :=
  match i.marshal with
  | .error e => .error e
  | .ok body => .ok ⟨auth.url, authHeaders auth, body⟩

/-- Decidable equality of decode outcomes, for evaluating the embedding on
concrete inputs. -/
instance {ε α : Type} [DecidableEq ε] [DecidableEq α] : DecidableEq (Except ε α) :=
  fun a b =>
    match a, b with
    | .error e, .error f =>
        if h : e = f then .isTrue (by rw [h]) else .isFalse (by simp [h])
    | .ok x, .ok y =>
        if h : x = y then .isTrue (by rw [h]) else .isFalse (by simp [h])
    | .error _, .ok _ => .isFalse (by simp)
    | .ok _, .error _ => .isFalse (by simp)

/-- What `client.Do` yields: a transport failure, or a response carrying
the status code, the outcome of decoding the body as the error shape, and
the raw readable body. -/
structure HTTPResponse where
  statusCode : Int
  errorDecode : Except String ErrorInfo
  body : String
  deriving Repr, DecidableEq

/-- Outcome of `commonRequest`, instrumented with whether `client.Do` was
invoked: the source calls the client only after `cReq.build` succeeds, so
a build failure returns before any network activity. -/
structure CommonResult where
  result : Except GoErr String
  networkCalled : Bool
  deriving Repr, DecidableEq

/-- `commonRequest` (common.go): build the request, execute it, and branch
on the status code — anything other than `http.StatusOK` (200) goes to
`ResponseError.build`, a 200 hands back the readable body. -/
def commonRequest (buildResult : Except GoErr HTTPRequest)
    (client : HTTPRequest → Except String HTTPResponse) : CommonResult :=
  match buildResult with
  | .error e => ⟨.error e, false⟩
  | .ok request =>
      match client request with
      | .error e =>
          ⟨.error (.wrap "failed to send request: " (.simple e)), true⟩
      | .ok resp =>
          if resp.statusCode ≠ 200 then
            ⟨.error (ResponseError.build resp.errorDecode resp.statusCode), true⟩
          else
            ⟨.ok resp.body, true⟩

/-! ### Helper lemmas -/

theorem containsValue_iff (v : String) (l : List String) :
    containsValue v l = true ↔ v ∈ l := by
  induction l with
  | nil => simp [containsValue]
  | cons a rest ih =>
      unfold containsValue
      by_cases h : v = a
      · simp [h]
      · simp [h, ih]

theorem marshalJSON_of_mem {v : String} {l : List String} (h : v ∈ l) :
    marshalJSON v l = .ok (.str v) := by
  unfold marshalJSON
  rw [if_pos ((containsValue_iff v l).mpr h)]

theorem marshalJSON_of_not_mem {v : String} {l : List String} (h : v ∉ l) :
    marshalJSON v l = .error (.join ErrMarshalJSON (.simple ("invalid value: " ++ v))) := by
  unfold marshalJSON
  rw [if_neg (fun hc => h ((containsValue_iff v l).mp hc))]

theorem unMarshalJSON_str_of_mem (t : String) {s : String} {l : List String}
    (h : s ∈ l) : unMarshalJSON t (.str s) l = ⟨s, none⟩ := by
  show (if containsValue s l = true then _ else _) = _
  rw [if_pos ((containsValue_iff s l).mpr h)]

theorem unMarshalJSON_str_of_not_mem (t : String) {s : String} {l : List String}
    (h : s ∉ l) : unMarshalJSON t (.str s) l =
      ⟨t, some (.join ErrUnmarshalJSON (.simple ("invalid value: " ++ s)))⟩ := by
  show (if containsValue s l = true then _ else _) = _
  rw [if_neg (fun hc => h ((containsValue_iff s l).mp hc))]

theorem unMarshalJSON_err_none_iff (t s : String) (l : List String) :
    (unMarshalJSON t (.str s) l).err = none ↔ s ∈ l := by
  constructor
  · intro h
    by_contra hn
    rw [unMarshalJSON_str_of_not_mem t hn] at h
    exact Option.noConfusion h
  · intro h
    rw [unMarshalJSON_str_of_mem t h]

theorem unMarshalJSON_receiver_of_err (t : String) (b : Json) (l : List String)
    (h : (unMarshalJSON t b l).err.isSome = true) :
    (unMarshalJSON t b l).receiver = t := by
  cases b with
  | str s =>
      by_cases hm : s ∈ l
      · rw [unMarshalJSON_str_of_mem t hm] at h
        exact absurd h (by simp)
      · rw [unMarshalJSON_str_of_not_mem t hm]
  | null => rfl
  | bool b => rfl
  | num n => rfl
  | f32 bits => rfl
  | arr xs => rfl
  | obj fs => rfl

theorem unMarshalJSON_success_shape (t : String) (b : Json) (l : List String)
    (h : (unMarshalJSON t b l).err = none) :
    b = .str (unMarshalJSON t b l).receiver ∧ (unMarshalJSON t b l).receiver ∈ l := by
  cases b with
  | str s =>
      by_cases hm : s ∈ l
      · rw [unMarshalJSON_str_of_mem t hm]
        exact ⟨rfl, hm⟩
      · rw [unMarshalJSON_str_of_not_mem t hm] at h
        exact Option.noConfusion h
  | null => exact Option.noConfusion h
  | bool b => exact Option.noConfusion h
  | num n => exact Option.noConfusion h
  | f32 bits => exact Option.noConfusion h
  | arr xs => exact Option.noConfusion h
  | obj fs => exact Option.noConfusion h

/-! ### Claims -/

/-- Claim C1: for every Role, Model and FinishReason value in its type's
allow-list, MarshalJSON succeeds with the JSON string of the value and
UnmarshalJSON of that output restores the original value (round-trip); for
every value outside the allow-list MarshalJSON errors, and UnmarshalJSON of
a JSON string succeeds exactly when its content is a member of the
allow-list, the membership being exact, case-sensitive string equality. -/
theorem claim_C1_closed_vocab_roundtrip (v s t : String) :
    ((v ∈ roleValues →
        Role.MarshalJSON v = .ok (.str v) ∧ Role.UnmarshalJSON t (.str v) = ⟨v, none⟩)
      ∧ (v ∉ roleValues →
          Role.MarshalJSON v =
            .error (.join ErrMarshalJSON (.simple ("invalid value: " ++ v))))
      ∧ ((Role.UnmarshalJSON t (.str s)).err = none ↔ s ∈ roleValues))
    ∧ ((v ∈ modelValues →
        Model.MarshalJSON v = .ok (.str v) ∧ Model.UnmarshalJSON t (.str v) = ⟨v, none⟩)
      ∧ (v ∉ modelValues →
          Model.MarshalJSON v =
            .error (.join ErrMarshalJSON (.simple ("invalid value: " ++ v))))
      ∧ ((Model.UnmarshalJSON t (.str s)).err = none ↔ s ∈ modelValues))
    ∧ ((v ∈ finishReasonValues →
        FinishReason.MarshalJSON v = .ok (.str v) ∧
          FinishReason.UnmarshalJSON t (.str v) = ⟨v, none⟩)
      ∧ (v ∉ finishReasonValues →
          FinishReason.MarshalJSON v =
            .error (.join ErrMarshalJSON (.simple ("invalid value: " ++ v))))
      ∧ ((FinishReason.UnmarshalJSON t (.str s)).err = none ↔ s ∈ finishReasonValues)) := by
  refine ⟨⟨?_, ?_, ?_⟩, ⟨?_, ?_, ?_⟩, ⟨?_, ?_, ?_⟩⟩
  · exact fun h => ⟨marshalJSON_of_mem h, unMarshalJSON_str_of_mem t h⟩
  · exact fun h => marshalJSON_of_not_mem h
  · exact unMarshalJSON_err_none_iff t s roleValues
  · exact fun h => ⟨marshalJSON_of_mem h, unMarshalJSON_str_of_mem t h⟩
  · exact fun h => marshalJSON_of_not_mem h
  · exact unMarshalJSON_err_none_iff t s modelValues
  · exact fun h => ⟨marshalJSON_of_mem h, unMarshalJSON_str_of_mem t h⟩
  · exact fun h => marshalJSON_of_not_mem h
  · exact unMarshalJSON_err_none_iff t s finishReasonValues

/-- Concrete instances of claim C1: the allow-listed "user" round-trips,
the case-variant "USER" is rejected on marshal, "gpt-4o" round-trips,
"gpt-5" is rejected, and unmarshal of the non-member string "Length"
fails for FinishReason. -/
theorem claim_C1_witness :
    (Role.MarshalJSON "user" = .ok (.str "user")
      ∧ Role.UnmarshalJSON "assistant" (.str "user") = ⟨"user", none⟩)
    ∧ Role.MarshalJSON "USER" =
        .error (.join ErrMarshalJSON (.simple "invalid value: USER"))
    ∧ (Model.MarshalJSON "gpt-4o" = .ok (.str "gpt-4o")
      ∧ Model.UnmarshalJSON "" (.str "gpt-4o") = ⟨"gpt-4o", none⟩)
    ∧ Model.MarshalJSON "gpt-5" =
        .error (.join ErrMarshalJSON (.simple "invalid value: gpt-5"))
    ∧ ¬(FinishReason.UnmarshalJSON "stop" (.str "Length")).err = none := by
  have h1 := claim_C1_closed_vocab_roundtrip "user" "user" "assistant"
  have h2 := claim_C1_closed_vocab_roundtrip "USER" "USER" "assistant"
  have h3 := claim_C1_closed_vocab_roundtrip "gpt-4o" "gpt-4o" ""
  have h4 := claim_C1_closed_vocab_roundtrip "gpt-5" "gpt-5" ""
  have h5 := claim_C1_closed_vocab_roundtrip "Length" "Length" "stop"
  refine ⟨h1.1.1 (by decide), h2.1.2.1 (by decide), h3.2.1.1 (by decide),
    h4.2.1.2.1 (by decide), fun hn => ?_⟩
  exact absurd (h5.2.2.2.2.mp hn) (by decide)

/-- Claim C9: whenever the generic unmarshal of a Role, Model or
FinishReason fails — for a non-string JSON token or a string outside the
allow-list — the receiver keeps its previous value; on success the
receiver is assigned the parsed allow-listed string. -/
theorem claim_C9_receiver_unchanged (t : String) (b : Json) :
    ((Role.UnmarshalJSON t b).err.isSome = true →
      (Role.UnmarshalJSON t b).receiver = t)
    ∧ ((Model.UnmarshalJSON t b).err.isSome = true →
      (Model.UnmarshalJSON t b).receiver = t)
    ∧ ((FinishReason.UnmarshalJSON t b).err.isSome = true →
      (FinishReason.UnmarshalJSON t b).receiver = t)
    ∧ ((Role.UnmarshalJSON t b).err = none →
      b = .str (Role.UnmarshalJSON t b).receiver ∧
        (Role.UnmarshalJSON t b).receiver ∈ roleValues) := by
  exact ⟨unMarshalJSON_receiver_of_err t b roleValues,
    unMarshalJSON_receiver_of_err t b modelValues,
    unMarshalJSON_receiver_of_err t b finishReasonValues,
    unMarshalJSON_success_shape t b roleValues⟩

/-- Concrete instances of claim C9: the receiver "orig" survives a failed
unmarshal from a non-string token and from a non-member string. -/
theorem claim_C9_witness :
    (Role.UnmarshalJSON "orig" (.num 5)).receiver = "orig"
    ∧ (Model.UnmarshalJSON "orig" (.str "gpt-5")).receiver = "orig"
    ∧ (FinishReason.UnmarshalJSON "orig" (.str "Stop")).receiver = "orig" := by
  exact ⟨(claim_C9_receiver_unchanged "orig" (.num 5)).1 (by decide),
    (claim_C9_receiver_unchanged "orig" (.str "gpt-5")).2.1 (by decide),
    (claim_C9_receiver_unchanged "orig" (.str "Stop")).2.2.1 (by decide)⟩

/-- The error of the max-tokens ceiling check for a given request. -/
def maxTokensErr (c : CompletionRequest) : GoErr :=
  .join ErrRequiredParam
    (.simple ("max tokens limit is " ++ toString (TokenLimits c.model) ++
      ", but gotten " ++ toString c.maxTokens))

theorem marshal_model_empty {c : CompletionRequest} (h : c.model = "") :
    c.marshal = .error (.join ErrRequiredParam (.simple "model must not be empty")) := by
  unfold CompletionRequest.marshal
  rw [if_pos h]

theorem marshal_messages_empty {c : CompletionRequest} (h1 : c.model ≠ "")
    (h2 : c.messages = []) :
    c.marshal = .error (.join ErrRequiredParam (.simple "messages must not be empty")) := by
  unfold CompletionRequest.marshal
  rw [if_neg h1, if_pos (by simp [h2])]

theorem marshal_checks_passed {c : CompletionRequest} (h1 : c.model ≠ "")
    (h2 : c.messages ≠ [])
    (h3 : ¬(0 < c.maxTokens ∧ TokenLimits c.model < c.maxTokens)) :
    c.marshal = match c.marshalBody with
      | .error e => .error (.wrap "failed to marshal request: " e)
      | .ok j => .ok j := by
  unfold CompletionRequest.marshal
  rw [if_neg h1, if_neg (by simp [h2]), if_neg h3]

theorem marshal_maxTokens_iff {c : CompletionRequest} (h1 : c.model ≠ "")
    (h2 : c.messages ≠ []) :
    c.marshal = .error (maxTokensErr c) ↔
      0 < c.maxTokens ∧ TokenLimits c.model < c.maxTokens := by
  constructor
  · intro he
    by_contra hc
    rw [marshal_checks_passed h1 h2 hc] at he
    cases hb : c.marshalBody with
    | error e => rw [hb] at he; simp [maxTokensErr] at he
    | ok j => rw [hb] at he; simp at he
  · intro hc
    unfold CompletionRequest.marshal
    rw [if_neg h1, if_neg (by simp [h2]), if_pos hc]
    rfl

/-- Claim C2: `CompletionRequest.marshal` validates in a fixed order with
the first failure winning — an empty model fails with the RequiredParam
"model must not be empty" error whatever the other fields hold (in
particular when messages is also empty), then an empty message sequence
fails with the RequiredParam "messages must not be empty" error whatever
the model, and only with both non-empty is the max-tokens ceiling check
performed, its error occurring exactly when the ceiling is exceeded. -/
theorem claim_C2_validation_order (c : CompletionRequest) :
    (c.model = "" →
      c.marshal = .error (.join ErrRequiredParam (.simple "model must not be empty")))
    ∧ (c.model ≠ "" → c.messages = [] →
      c.marshal = .error (.join ErrRequiredParam (.simple "messages must not be empty")))
    ∧ (c.model ≠ "" → c.messages ≠ [] →
      (c.marshal = .error (maxTokensErr c) ↔
        0 < c.maxTokens ∧ TokenLimits c.model < c.maxTokens)) :=
  ⟨fun h => marshal_model_empty h,
   fun h1 h2 => marshal_messages_empty h1 h2,
   fun h1 h2 => marshal_maxTokens_iff h1 h2⟩

/-- Concrete instances of claim C2: the model check wins over the message
check when both fields are empty, the message check fires for a non-empty
model, and the ceiling check fires for gpt-3.5-turbo with 5000 tokens. -/
theorem claim_C2_witness :
    CompletionRequest.marshal { model := "", messages := [] } =
      .error (.join ErrRequiredParam (.simple "model must not be empty"))
    ∧ CompletionRequest.marshal { model := ModelGPT4, messages := [] } =
      .error (.join ErrRequiredParam (.simple "messages must not be empty"))
    ∧ CompletionRequest.marshal
        { model := ModelGPT35Turbo, messages := [⟨RoleUser, "hi", ""⟩],
          maxTokens := 5000 } =
      .error (.join ErrRequiredParam
        (.simple "max tokens limit is 4096, but gotten 5000")) := by
  have h1 := claim_C2_validation_order { model := "", messages := [] }
  have h2 := claim_C2_validation_order { model := ModelGPT4, messages := [] }
  have h3 := claim_C2_validation_order
    { model := ModelGPT35Turbo, messages := [⟨RoleUser, "hi", ""⟩], maxTokens := 5000 }
  exact ⟨h1.1 rfl, h2.2.1 (by decide) rfl,
    (h3.2.2 (by decide) (by decide)).mpr (by decide)⟩

/-- Counterexample to claim C3: the image-only model dall-e-2 is not
exempt from the ceiling check — it has no entry in the token-limit
mapping, so the Go map lookup reads 0 and a completion request for it with
any positive MaxTokens fails the ceiling check. -/
theorem claim_C3_counterexample :
    ModelDalle2 ∈ imageModels
    ∧ CompletionRequest.marshal
        { model := ModelDalle2, messages := [⟨RoleUser, "hi", ""⟩], maxTokens := 1 } =
      .error (.join ErrRequiredParam (.simple "max tokens limit is 0, but gotten 1")) :=
  ⟨by decide, rfl⟩

/-- Claim C3 (amended): for non-empty model and messages, marshal fails
with the "max tokens limit is N, but gotten M" RequiredParam error exactly
when MaxTokens is positive and exceeds the token-limit lookup for the
model, where a model absent from the mapping — the image-only models
dall-e-2 and dall-e-3 included — reads as ceiling 0; image models are
therefore not exempt from the check, and any positive MaxTokens fails for
them. -/
theorem claim_C3_token_ceiling (c : CompletionRequest) :
    (c.model ≠ "" → c.messages ≠ [] →
      (c.marshal = .error (maxTokensErr c) ↔
        0 < c.maxTokens ∧ TokenLimits c.model < c.maxTokens))
    ∧ (c.model ∈ imageModels → TokenLimits c.model = 0)
    ∧ (c.model ∈ imageModels → c.messages ≠ [] → 0 < c.maxTokens →
      c.marshal = .error (maxTokensErr c)) := by
  have himg : c.model ∈ imageModels → TokenLimits c.model = 0 := by
    intro h
    simp only [imageModels, List.mem_cons, List.not_mem_nil, or_false] at h
    rcases h with h | h <;> rw [h] <;> decide
  refine ⟨fun h1 h2 => marshal_maxTokens_iff h1 h2, himg, fun h1 h2 h3 => ?_⟩
  have hne : c.model ≠ "" := by
    intro h
    rw [h] at h1
    exact absurd h1 (by decide)
  exact (marshal_maxTokens_iff hne h2).mpr ⟨h3, by rw [himg h1]; exact h3⟩

/-- Concrete instance of claim C3 (amended): dall-e-3 reads ceiling 0 and
fails with MaxTokens 2, while gpt-4 at its exact ceiling 8192 does not
trigger the max-tokens error. -/
theorem claim_C3_witness :
    TokenLimits ModelDalle3 = 0
    ∧ CompletionRequest.marshal
        { model := ModelDalle3, messages := [⟨RoleUser, "img", ""⟩], maxTokens := 2 } =
      .error (.join ErrRequiredParam (.simple "max tokens limit is 0, but gotten 2"))
    ∧ ¬(CompletionRequest.marshal
        { model := ModelGPT4, messages := [⟨RoleUser, "hi", ""⟩], maxTokens := 8192 } =
      .error (.join ErrRequiredParam (.simple "max tokens limit is 8192, but gotten 8192"))) := by
  have h1 := claim_C3_token_ceiling
    { model := ModelDalle3, messages := [⟨RoleUser, "img", ""⟩], maxTokens := 2 }
  have h2 := claim_C3_token_ceiling
    { model := ModelGPT4, messages := [⟨RoleUser, "hi", ""⟩], maxTokens := 8192 }
  refine ⟨h1.2.1 (by decide), h1.2.2 (by decide) (by decide) (by decide), fun hn => ?_⟩
  exact absurd ((h2.1 (by decide) (by decide)).mp hn).2 (by decide)

theorem toString_concat_aux (marker : String) (hasMarker : Bool) (l : List Choice) :
    ∀ acc : String,
      l.foldl
        (fun acc choice =>
          acc ++ choice.message.content ++
            (if hasMarker = true ∧ choice.finishReason = FinishReasonLength then
              marker
            else "")) acc
      = acc ++
        (l.map (fun choice =>
          choice.message.content ++
            (if hasMarker = true ∧ choice.finishReason = FinishReasonLength then
              marker
            else ""))).foldr (· ++ ·) "" := by
  induction l with
  | nil => intro acc; simp
  | cons c rest ih =>
      intro acc
      rw [List.foldl_cons, ih, List.map_cons, List.foldr_cons]
      simp [String.append_assoc]

/-- Claim C4: the text extraction of a `CompletionResponse` is the
concatenation, in choice order, of every choice's message content with the
configured stop marker appended immediately after each choice whose finish
reason is "length"; an empty (unconfigured) marker adds no decoration.  In
particular the two-choice "stop" example yields "This is a message." and a
single "length" choice yields its content followed by the configured
marker, or the bare content when no marker is configured. -/
theorem claim_C4_text_extraction (r : CompletionResponse) (s : String) :
    r.toString =
      (r.choices.map (fun choice =>
        choice.message.content ++
          (if r.stopMarker ≠ "" ∧ choice.finishReason = FinishReasonLength then
            r.stopMarker
          else ""))).foldr (· ++ ·) ""
    ∧ CompletionResponse.toString
        ⟨"id", "chat.completion", 0,
          [⟨0, ⟨RoleAssistant, "This is ", ""⟩, FinishReasonStop⟩,
           ⟨1, ⟨RoleAssistant, "a message.", ""⟩, FinishReasonStop⟩],
          ⟨0, 0, 0⟩, 0, ""⟩ = "This is a message."
    ∧ CompletionResponse.toString
        ⟨"id", "chat.completion", 0,
          [⟨0, ⟨RoleAssistant, s, ""⟩, FinishReasonLength⟩],
          ⟨0, 0, 0⟩, 0, " [reason=length]"⟩ = s ++ " [reason=length]"
    ∧ CompletionResponse.toString
        ⟨"id", "chat.completion", 0,
          [⟨0, ⟨RoleAssistant, s, ""⟩, FinishReasonLength⟩],
          ⟨0, 0, 0⟩, 0, ""⟩ = s := by
  refine ⟨?_, by decide, ?_, ?_⟩
  · show (let hasMarker : Bool := r.stopMarker ≠ ""
      r.choices.foldl
        (fun acc choice =>
          acc ++ choice.message.content ++
            (if hasMarker = true ∧ choice.finishReason = FinishReasonLength then
              r.stopMarker
            else "")) "") = _
    rw [toString_concat_aux]
    simp only [decide_eq_true_eq, String.append_assoc]
    rfl
  · show ("" ++ (s ++ " [reason=length]") : String) = s ++ " [reason=length]"
    simp
  · show ("" ++ (s ++ "") : String) = s
    simp

/-- Claim C10: a completion request whose model is a non-empty string
outside the Model allow-list, with non-empty messages and MaxTokens 0,
passes all three RequiredParam validation checks and fails inside
`json.Marshal` instead — with the "failed to marshal request" wrap of the
`MarshalerError` around the closed-vocabulary `ErrMarshalJSON` join, an
error that satisfies `errors.Is` for `ErrMarshalJSON` but not for
`ErrRequiredParam`. -/
theorem claim_C10_marshal_category (c : CompletionRequest)
    (h1 : c.model ∉ modelValues) (h2 : c.model ≠ "") (h3 : c.messages ≠ [])
    (h4 : c.maxTokens = 0) :
    c.marshal = .error (.wrap "failed to marshal request: "
      (.wrap "json: error calling MarshalJSON for type aoapi.Model: "
        (.join ErrMarshalJSON (.simple ("invalid value: " ++ c.model)))))
    ∧ (GoErr.wrap "failed to marshal request: "
        (.wrap "json: error calling MarshalJSON for type aoapi.Model: "
          (.join ErrMarshalJSON (.simple ("invalid value: " ++ c.model))))).isErr
        ErrMarshalJSON = true
    ∧ (GoErr.wrap "failed to marshal request: "
        (.wrap "json: error calling MarshalJSON for type aoapi.Model: "
          (.join ErrMarshalJSON (.simple ("invalid value: " ++ c.model))))).isErr
        ErrRequiredParam = false := by
  have hbody : c.marshalBody = .error
      (.wrap "json: error calling MarshalJSON for type aoapi.Model: "
        (.join ErrMarshalJSON (.simple ("invalid value: " ++ c.model)))) := by
    unfold CompletionRequest.marshalBody
    rw [show Model.MarshalJSON c.model =
      .error (.join ErrMarshalJSON (.simple ("invalid value: " ++ c.model)))
      from marshalJSON_of_not_mem h1]
  have hne : ("invalid value: " ++ c.model) ≠ "required parameter is missing" := by
    intro h
    have h5 := congrArg String.data h
    rw [String.data_append] at h5
    simp at h5
  refine ⟨?_, ?_, ?_⟩
  · rw [marshal_checks_passed h2 h3 (by simp [h4]), hbody]
  · simp [GoErr.isErr, ErrMarshalJSON, ErrRequiredParam]
  · simp [GoErr.isErr, ErrMarshalJSON, ErrRequiredParam, hne]

/-- Concrete instance of claim C10: the non-empty, non-allow-listed model
"gpt-5" with one message and MaxTokens 0 fails in serialization with the
marshal-request wrap of the closed-vocabulary error. -/
theorem claim_C10_witness :
    CompletionRequest.marshal { model := "gpt-5", messages := [⟨RoleUser, "hi", ""⟩] } =
      .error (.wrap "failed to marshal request: "
        (.wrap "json: error calling MarshalJSON for type aoapi.Model: "
          (.join ErrMarshalJSON (.simple "invalid value: gpt-5")))) := by
  exact (claim_C10_marshal_category
    { model := "gpt-5", messages := [⟨RoleUser, "hi", ""⟩] }
    (by decide) (by decide) (by decide) rfl).1

/-- Whether the serialized JSON object carries a field with the given key. -/
def hasKey (j : Json) (k : String) : Bool :=
  match j with
  | .obj fields => fields.any (fun f => f.1 == k)
  | _ => false

theorem any_ite_nil_single {b : Prop} [Decidable b] (x : String × Json)
    (p : String × Json → Bool) :
    (if b then ([] : List (String × Json)) else [x]).any p = (!(decide b) && p x) := by
  by_cases h : b <;> simp [h]

theorem optField_any (key k : String) (o : Option Json) :
    (optField key o).any (fun f => f.1 == k) = (o.isSome && (key == k)) := by
  cases o <;> simp [optField]

theorem marshal_ok_inversion {c : CompletionRequest} {j : Json}
    (h : c.marshal = .ok j) :
    ∃ modelJson msgs,
      Model.MarshalJSON c.model = .ok modelJson ∧ marshalMessages c.messages = .ok msgs ∧
      j = .obj ([("model", modelJson), ("messages", .arr msgs)] ++
        (if c.maxTokens = 0 then [] else [("max_tokens", .num c.maxTokens)]) ++
        (if c.user = "" then [] else [("user", .str c.user)]) ++
        optField "temperature" (c.temperature.map .f32) ++
        optField "top_p" (c.topP.map .f32) ++
        optField "n" (c.n.map .num) ++
        optField "stream" (c.stream.map .bool) ++
        optField "stop" (c.stop.map (fun xs => .arr (xs.map .str))) ++
        optField "presence_penalty" (c.presencePenalty.map .f32) ++
        optField "frequency_penalty" (c.frequencyPenalty.map .f32) ++
        optField "logit_bias" (c.logitBias.map
          (fun bs => .obj (bs.map (fun b => (b.1, Json.f32 b.2)))))) := by
  by_cases hm : c.model = ""
  · rw [marshal_model_empty hm] at h
    exact Except.noConfusion h
  by_cases hmsg : c.messages = []
  · rw [marshal_messages_empty hm hmsg] at h
    exact Except.noConfusion h
  by_cases hmax : 0 < c.maxTokens ∧ TokenLimits c.model < c.maxTokens
  · rw [(marshal_maxTokens_iff hm hmsg).mpr hmax] at h
    exact Except.noConfusion h
  rw [marshal_checks_passed hm hmsg hmax] at h
  cases hb : c.marshalBody with
  | error e => rw [hb] at h; exact Except.noConfusion h
  | ok j2 =>
      rw [hb] at h
      have hj : j2 = j := Except.ok.inj h
      subst hj
      unfold CompletionRequest.marshalBody at hb
      cases hmj : Model.MarshalJSON c.model with
      | error e => rw [hmj] at hb; exact Except.noConfusion hb
      | ok modelJson =>
          rw [hmj] at hb
          cases hms : marshalMessages c.messages with
          | error e => rw [hms] at hb; exact Except.noConfusion hb
          | ok msgs =>
              rw [hms] at hb
              exact ⟨modelJson, msgs, rfl, rfl, (Except.ok.inj hb).symm⟩

/-- Claim C7: a completion request that passes validation serializes to a
JSON object carrying exactly the set fields — the required `model` and
`messages` are always present, and each of the ten optional generation
parameters is present exactly when it is set (positive `max_tokens`,
non-empty `user`, non-nil pointer for the rest) and entirely omitted
otherwise, never serialized as a default or zero value. -/
theorem claim_C7_omitempty (c : CompletionRequest) (j : Json)
    (h : c.marshal = .ok j) :
    hasKey j "model" = true
    ∧ hasKey j "messages" = true
    ∧ (hasKey j "max_tokens" = true ↔ c.maxTokens ≠ 0)
    ∧ (hasKey j "user" = true ↔ c.user ≠ "")
    ∧ (hasKey j "temperature" = true ↔ c.temperature.isSome = true)
    ∧ (hasKey j "top_p" = true ↔ c.topP.isSome = true)
    ∧ (hasKey j "n" = true ↔ c.n.isSome = true)
    ∧ (hasKey j "stream" = true ↔ c.stream.isSome = true)
    ∧ (hasKey j "stop" = true ↔ c.stop.isSome = true)
    ∧ (hasKey j "presence_penalty" = true ↔ c.presencePenalty.isSome = true)
    ∧ (hasKey j "frequency_penalty" = true ↔ c.frequencyPenalty.isSome = true)
    ∧ (hasKey j "logit_bias" = true ↔ c.logitBias.isSome = true) := by
  obtain ⟨modelJson, msgs, hmj, hms, hj⟩ := marshal_ok_inversion h
  subst hj
  refine ⟨?_, ?_, ?_, ?_, ?_, ?_, ?_, ?_, ?_, ?_, ?_, ?_⟩ <;>
    simp [hasKey, List.any_append, any_ite_nil_single, optField_any]

/-- Concrete instance of claim C7: a request with `max_tokens` 5 and a set
temperature but no user and no stream serializes with exactly those keys
present. -/
theorem claim_C7_witness :
    CompletionRequest.marshal
      { model := "gpt-4o", messages := [⟨RoleUser, "hi", ""⟩], maxTokens := 5,
        temperature := some 7 } =
      .ok (.obj [("model", .str "gpt-4o"),
        ("messages", .arr [.obj [("role", .str "user"), ("content", .str "hi")]]),
        ("max_tokens", .num 5), ("temperature", .f32 7)])
    ∧ hasKey (.obj [("model", .str "gpt-4o"),
        ("messages", .arr [.obj [("role", .str "user"), ("content", .str "hi")]]),
        ("max_tokens", .num 5), ("temperature", .f32 7)]) "max_tokens" = true
    ∧ hasKey (.obj [("model", .str "gpt-4o"),
        ("messages", .arr [.obj [("role", .str "user"), ("content", .str "hi")]]),
        ("max_tokens", .num 5), ("temperature", .f32 7)]) "user" = false
    ∧ hasKey (.obj [("model", .str "gpt-4o"),
        ("messages", .arr [.obj [("role", .str "user"), ("content", .str "hi")]]),
        ("max_tokens", .num 5), ("temperature", .f32 7)]) "stream" = false := by
  have h := claim_C7_omitempty
    { model := "gpt-4o", messages := [⟨RoleUser, "hi", ""⟩], maxTokens := 5,
      temperature := some 7 }
    (.obj [("model", .str "gpt-4o"),
      ("messages", .arr [.obj [("role", .str "user"), ("content", .str "hi")]]),
      ("max_tokens", .num 5), ("temperature", .f32 7)])
    rfl
  refine ⟨rfl, h.2.2.1.mpr (by decide), ?_, ?_⟩
  · have hu := h.2.2.2.1
    simp only [iff_iff_implies_and_implies] at hu
    cases hk : hasKey (.obj [("model", .str "gpt-4o"),
        ("messages", .arr [.obj [("role", .str "user"), ("content", .str "hi")]]),
        ("max_tokens", .num 5), ("temperature", .f32 7)]) "user"
    · rfl
    · exact absurd (hu.1 hk) (by decide)
  · have hs := h.2.2.2.2.2.2.2.1
    cases hk : hasKey (.obj [("model", .str "gpt-4o"),
        ("messages", .arr [.obj [("role", .str "user"), ("content", .str "hi")]]),
        ("max_tokens", .num 5), ("temperature", .f32 7)]) "stream"
    · rfl
    · exact absurd (hs.mp hk) (by decide)

/-- Character-level prefix test on strings, used to state message-shape
properties so that they evaluate on concrete inputs. -/
def strStartsWith (s p : String) : Bool := p.data.isPrefixOf s.data

/-- Character-level suffix test on strings. -/
def strEndsWith (s p : String) : Bool := p.data.isSuffixOf s.data

/-- Counterexample to claim C5: for a structurally malformed completion
body the returned error's message does not start with
"failed to unmarshal response" — the code joins `ErrResponse` in front, so
the message starts with "failed response" and only contains the unmarshal
note after a newline. -/
theorem claim_C5_counterexample :
    CompletionResponse.build (Except.error "unexpected EOF") "" =
      .error (.join ErrResponse
        (.wrap "failed to unmarshal response: " (.simple "unexpected EOF")))
    ∧ (GoErr.join ErrResponse
        (.wrap "failed to unmarshal response: " (.simple "unexpected EOF"))).message =
      "failed response\nfailed to unmarshal response: unexpected EOF"
    ∧ strStartsWith (GoErr.join ErrResponse
        (.wrap "failed to unmarshal response: " (.simple "unexpected EOF"))).message
        "failed to unmarshal response" = false :=
  ⟨rfl, rfl, by decide⟩

/-- Claim C5 (amended): a structurally malformed completion body fails
with `ErrResponse` joined with the "failed to unmarshal response" wrap of
the decode failure, so the combined message is "failed response", a
newline, then "failed to unmarshal response: " and the cause (contains,
but does not start with, the unmarshal note); a malformed image body fails
with a message that is exactly "failed to unmarshal image response: "
followed by the cause; a structurally valid body with zero choices (resp.
zero image entries) fails with a distinct error whose message ends with
"empty response" (resp. "empty image response"), so a 200 status with no
content is a failure, never a valid empty success. -/
theorem claim_C5_decode_failures :
    (∀ (e marker : String),
      CompletionResponse.build (.error e) marker =
        .error (.join ErrResponse (.wrap "failed to unmarshal response: " (.simple e)))
      ∧ (GoErr.join ErrResponse
          (.wrap "failed to unmarshal response: " (.simple e))).message =
        "failed response" ++ "\n" ++ ("failed to unmarshal response: " ++ e))
    ∧ (∀ (raw : RawCompletionResponse) (marker : String), raw.choices = [] →
      CompletionResponse.build (.ok raw) marker =
        .error (.join ErrResponse (.simple "empty response"))
      ∧ strEndsWith (GoErr.join ErrResponse (.simple "empty response")).message
          "empty response" = true)
    ∧ (∀ e : String,
      ImageResponse.build (.error e) =
        .error (.wrap "failed to unmarshal image response: " (.simple e))
      ∧ (GoErr.wrap "failed to unmarshal image response: " (.simple e)).message =
        "failed to unmarshal image response: " ++ e)
    ∧ (∀ raw : RawImageResponse, raw.data = [] →
      ImageResponse.build (.ok raw) =
        .error (.join ErrResponse (.simple "empty image response"))
      ∧ strEndsWith (GoErr.join ErrResponse (.simple "empty image response")).message
          "empty image response" = true) := by
  refine ⟨fun e marker => ⟨rfl, rfl⟩, fun raw marker h => ⟨?_, by decide⟩,
    fun e => ⟨rfl, rfl⟩, fun raw h => ⟨?_, by decide⟩⟩
  · simp [CompletionResponse.build, h]
  · simp [ImageResponse.build, h]

/-- Concrete instances of claim C5 (amended): the decode-failure and
empty-payload errors at explicit inputs. -/
theorem claim_C5_witness :
    CompletionResponse.build (.ok ⟨"id", "chat.completion", 5, [], ⟨1, 2, 3⟩⟩) "" =
      .error (.join ErrResponse (.simple "empty response"))
    ∧ ImageResponse.build (.error "invalid character") =
      .error (.wrap "failed to unmarshal image response: "
        (.simple "invalid character"))
    ∧ strStartsWith (GoErr.wrap "failed to unmarshal image response: "
        (.simple "invalid character")).message
        "failed to unmarshal image response" = true
    ∧ ImageResponse.build (.ok ⟨7, []⟩) =
      .error (.join ErrResponse (.simple "empty image response")) := by
  refine ⟨(claim_C5_decode_failures.2.1 ⟨"id", "chat.completion", 5, [], ⟨1, 2, 3⟩⟩
      "" rfl).1,
    (claim_C5_decode_failures.2.2.1 "invalid character").1, by decide,
    (claim_C5_decode_failures.2.2.2 ⟨7, []⟩ rfl).1⟩

/-- Counterexample to claim C6: a 201 status — a 2xx success by the
claim's reading — is handed to the error decoder, not returned as a
readable body: the transport branch tests for exactly 200. -/
theorem claim_C6_counterexample :
    commonRequest (.ok ⟨"https://api.test/v1", [], .null⟩)
      (fun _ => .ok ⟨201, .ok ⟨"m", "t", "p", "c"⟩, "BODY"⟩) =
      ⟨.error (.join (.join ErrResponse (.simple "status code 201"))
        (.simple "type=\"t\", param=\"p\", code=\"c\": m")), true⟩
    ∧ (200 ≤ (201 : Int) ∧ (201 : Int) < 300) :=
  ⟨rfl, by decide⟩

/-- Claim C6 (amended): the transport orchestrator branches on the exact
status 200: any other status — non-2xx statuses and also non-OK 2xx
statuses such as 201 — is delegated to the error decoder, whose error is
returned without attempting success decoding, while a 200 returns the
readable body for success decoding.  The error decoder always produces an
error value; its message always carries the status code right after the
`ErrResponse` context; when the error body fails to decode the message
additionally wraps the decode failure, and when it decodes the message
ends with the fixed `type=%q, param=%q, code=%q: %s` format over the
structured fields. -/
theorem claim_C6_status_branch (req : HTTPRequest)
    (client : HTTPRequest → Except String HTTPResponse) (resp : HTTPResponse)
    (hclient : client req = .ok resp) (sc : Int) (e : String) (info : ErrorInfo) :
    (resp.statusCode ≠ 200 →
      commonRequest (.ok req) client =
        ⟨.error (ResponseError.build resp.errorDecode resp.statusCode), true⟩)
    ∧ (resp.statusCode = 200 →
      commonRequest (.ok req) client = ⟨.ok resp.body, true⟩)
    ∧ (ResponseError.build (.error e) sc).message =
      "failed response" ++ "\n" ++ ("status code " ++ Int.repr sc) ++ "\n" ++
        ("failed unmarshal error: " ++ e)
    ∧ (ResponseError.build (.ok info) sc).message =
      "failed response" ++ "\n" ++ ("status code " ++ Int.repr sc) ++ "\n" ++
        ("type=\"" ++ info.type ++ "\", param=\"" ++ info.param ++ "\", code=\"" ++
          info.code ++ "\": " ++ info.message) := by
  refine ⟨fun hne => ?_, fun heq => ?_, ?_, ?_⟩
  · simp [commonRequest, hclient, hne]
  · simp [commonRequest, hclient, heq]
  · simp [ResponseError.build, GoErr.message, ErrResponse, String.append_assoc]
  · simp [ResponseError.build, GoErr.message, ErrResponse, responseErrorMessage,
      String.append_assoc]

/-- Concrete instances of claim C6 (amended): a 404 with a decodable error
body produces the exact joined message the fixed format prescribes, a 400
with an undecodable body wraps the decode failure, and a 200 returns the
body. -/
theorem claim_C6_witness :
    commonRequest (.ok ⟨"https://api.test/v1", [], .null⟩)
      (fun _ => .ok ⟨404, .ok ⟨"no such route", "invalid_request_error", "", ""⟩, ""⟩) =
      ⟨.error (ResponseError.build
        (.ok ⟨"no such route", "invalid_request_error", "", ""⟩) 404), true⟩
    ∧ (ResponseError.build
        (.ok ⟨"no such route", "invalid_request_error", "", ""⟩) 404).message =
      "failed response\nstatus code 404\ntype=\"invalid_request_error\", param=\"\", code=\"\": no such route"
    ∧ (ResponseError.build (.error "unexpected EOF") 400).message =
      "failed response\nstatus code 400\nfailed unmarshal error: unexpected EOF"
    ∧ commonRequest (.ok ⟨"https://api.test/v1", [], .null⟩)
      (fun _ => .ok ⟨200, .error "not an error body", "BODY"⟩) =
      ⟨.ok "BODY", true⟩ := by
  have h1 := claim_C6_status_branch ⟨"https://api.test/v1", [], .null⟩
    (fun _ => .ok ⟨404, .ok ⟨"no such route", "invalid_request_error", "", ""⟩, ""⟩)
    ⟨404, .ok ⟨"no such route", "invalid_request_error", "", ""⟩, ""⟩ rfl
    404 "unexpected EOF" ⟨"no such route", "invalid_request_error", "", ""⟩
  have h2 := claim_C6_status_branch ⟨"https://api.test/v1", [], .null⟩
    (fun _ => .ok ⟨200, .error "not an error body", "BODY"⟩)
    ⟨200, .error "not an error body", "BODY"⟩ rfl
    400 "unexpected EOF" ⟨"no such route", "invalid_request_error", "", ""⟩
  exact ⟨h1.1 (by decide), h1.2.2.2, h2.2.2.1, h2.2.1 rfl⟩

/-- Claim C8: validation strictly precedes network I/O — whenever the
request build fails, `commonRequest` returns that validation error with
the client never invoked, whatever the client would have answered; in
particular an image request with an empty prompt, and a completion request
with an empty model, fail with their RequiredParam errors before any
network activity. -/
theorem claim_C8_validation_before_network :
    (∀ (e : GoErr) (client : HTTPRequest → Except String HTTPResponse),
      commonRequest (.error e) client = ⟨.error e, false⟩)
    ∧ (∀ (i : ImageRequest) (p : Params)
        (client : HTTPRequest → Except String HTTPResponse), i.prompt = "" →
      commonRequest (i.buildReq p) client =
        ⟨.error (.join ErrRequiredParam (.simple "prompt must not be empty")), false⟩)
    ∧ (∀ (c : CompletionRequest) (p : Params)
        (client : HTTPRequest → Except String HTTPResponse), c.model = "" →
      commonRequest (c.buildReq p) client =
        ⟨.error (.join ErrRequiredParam (.simple "model must not be empty")), false⟩) := by
  refine ⟨fun e client => rfl, fun i p client h => ?_, fun c p client h => ?_⟩
  · simp [ImageRequest.buildReq, ImageRequest.marshal, h, commonRequest]
  · simp [CompletionRequest.buildReq, marshal_model_empty h, commonRequest]

/-- Concrete instance of claim C8: an empty-prompt image request fails
without consulting a client that would have answered 200, and likewise an
empty-model completion request. -/
theorem claim_C8_witness :
    commonRequest (ImageRequest.buildReq ⟨"", 0, ""⟩ ⟨"key", "", "https://api.test", ""⟩)
      (fun _ => .ok ⟨200, .error "", "BODY"⟩) =
      ⟨.error (.join ErrRequiredParam (.simple "prompt must not be empty")), false⟩
    ∧ commonRequest
        (CompletionRequest.buildReq { model := "", messages := [] }
          ⟨"key", "", "https://api.test", ""⟩)
        (fun _ => .ok ⟨200, .error "", "BODY"⟩) =
      ⟨.error (.join ErrRequiredParam (.simple "model must not be empty")), false⟩ :=
  ⟨claim_C8_validation_before_network.2.1 ⟨"", 0, ""⟩
    ⟨"key", "", "https://api.test", ""⟩ (fun _ => .ok ⟨200, .error "", "BODY"⟩) rfl,
   claim_C8_validation_before_network.2.2 { model := "", messages := [] }
    ⟨"key", "", "https://api.test", ""⟩ (fun _ => .ok ⟨200, .error "", "BODY"⟩) rfl⟩

end Aoapi
